import Mathlib

/-!
Verification development for the tiktok_scrapper repository.

Python floats are modelled as rationals (`ℚ`); machine integers as `Nat`/`Int`.
`round(x, 2)` in Python rounds half to even; `round2` below implements that.
-/

/-- Python's `round` to the nearest integer, ties to even (banker's rounding). -/
def roundHalfEven (q : ℚ) : ℤ :=
  let f : ℤ := ⌊q⌋
  let frac : ℚ := q - f
  if frac < 1/2 then f
  else if frac > 1/2 then f + 1
  else if f % 2 = 0 then f else f + 1

/-- Python's `round(x, 2)`: round to two decimal places, ties to even. -/
def round2 (q : ℚ) : ℚ := (roundHalfEven (q * 100) : ℚ) / 100

namespace virality_scorer

/-- `virality_scorer.calculate_viral_score` (src/virality_scorer.py lines 1-13):
returns `0.0` when `followers == 0`, else `round(views / followers, 2)`. -/
def calculate_viral_score (views followers : Nat) : ℚ :=
  if followers = 0 then 0
  else round2 ((views : ℚ) / (followers : ℚ))

/-- `virality_scorer.classify_virality` (src/virality_scorer.py lines 15-26):
the conservative threshold ladder. -/
def classify_virality (score : ℚ) : String :=
  if score ≥ 10 then "🔥 Mega Viral"
  else if score ≥ 3 then "🚀 Trending"
  else if score ≥ 1 then "👍 Popular"
  else "😐 Normal"

end virality_scorer

namespace youtube_fetcher

/-- `youtube_fetcher.calculate_viral_score` (src/youtube_fetcher.py lines 10-14):
substitutes 1 for a zero subscriber count, then `round(views / subscribers, 2)`. -/
def calculate_viral_score (views subscribers : Nat) : ℚ :=
  let s : Nat := if subscribers = 0 then 1 else subscribers
  round2 ((views : ℚ) / (s : ℚ))

/-- `youtube_fetcher.classify_virality` (src/youtube_fetcher.py lines 17-26):
the stricter threshold ladder. -/
def classify_virality (score : ℚ) : String :=
  if score ≥ 10 then "🔥 Mega Viral"
  else if score ≥ 5 then "⚡ Viral"
  else if score ≥ 2 then "📈 Trending"
  else "📊 Normal"

end youtube_fetcher

/-- A threshold ladder evaluated highest-first, first match wins:
the spec's description of how `classify` maps a score to a label. -/
def ladderEval : List (ℚ × String) → String → ℚ → String
  | [], dflt, _ => dflt
  | (t, l) :: rest, dflt, s => if s ≥ t then l else ladderEval rest dflt s

/-- The conservative ladder as the spec lists it (≥10 mega-viral, ≥3 trending,
≥1 popular, else normal). -/
def conservativeLadder (s : ℚ) : String :=
  ladderEval [(10, "🔥 Mega Viral"), (3, "🚀 Trending"), (1, "👍 Popular")] "😐 Normal" s

/-- The stricter ladder as the spec lists it (≥10 mega, ≥5 viral, ≥2 trending,
else normal). -/
def stricterLadder (s : ℚ) : String :=
  ladderEval [(10, "🔥 Mega Viral"), (5, "⚡ Viral"), (2, "📈 Trending")] "📊 Normal" s

namespace youtube_fetcher

/-- One upstream video record as `search_videos` sees it after merging the
`search().list` item (id, snippet) with the `videos().list` item
(statistics, contentDetails).  Numeric fields are the already-decoded JSON
values (`int(statistics.get('viewCount', 0))` etc.); `durationSeconds` is the
result of `isodate.parse_duration` (0 when parsing fails); `date` is the
already-formatted publication date string. -/
structure Video where
  id : String
  channelId : String
  views : Nat
  likes : Nat
  comments : Nat
  durationSeconds : Nat
  title : String
  description : String
  thumbnail : String
  channelTitle : String
  date : String
  deriving DecidableEq, Repr

/-- One response of `self.youtube.search().list(...)`, with the corresponding
`videos().list` statistics merged into `items`.  Page tokens are modelled as
natural numbers (`Option Nat`, `none` = absent token). -/
structure SearchResponse where
  items : List Video
  nextPageToken : Option Nat
  prevPageToken : Option Nat
  deriving DecidableEq, Repr

/-- An upstream API call issued by `search_videos`, for the call trace.
`search` records the page token passed (query, order and videoDuration are
constant through a run); `videosList` and `channelsList` record the id lists
passed. -/
inductive ApiCall where
  | search : Option Nat → ApiCall
  | videosList : List String → ApiCall
  | channelsList : List String → ApiCall
  deriving DecidableEq, Repr

/-- The upstream YouTube Data API, specialised to one (query, order,
videoDuration) triple.  `fetch` models `search().list(...).execute()` together
with the follow-up `videos().list`, and may raise a transport error
(`Except.error`); `chanSubs` models the `channels().list` statistics: the
`subscriberCount` of a channel id, `none` when the channel is absent from the
response. -/
structure YTApi where
  fetch : Option Nat → Except String SearchResponse
  chanSubs : String → Option Nat

/-- Looking a channel id up in `subscriber_map` (src/youtube_fetcher.py lines
95-99 and 111): the map holds `subscriber_count if subscriber_count > 0 else 1`
for each channel in the response, and `subscriber_map.get(channel_id, 1)`
defaults to 1 for a missing channel. -/
def subMapLookup (api : YTApi) (channelId : String) : Nat :=
  match api.chanSubs channelId with
  | some n => if n > 0 then n else 1
  | none => 1

/-- One item (dict) appended to `all_videos`
(src/youtube_fetcher.py lines 141-157). -/
structure ContentItem where
  id : String
  title : String
  author : String
  hashtag : String
  followers : Nat
  views : Nat
  likes : Nat
  comments : Nat
  date : String
  viral_score : ℚ
  virality_label : String
  video_type : String
  duration_seconds : Nat
  thumbnail_url : String
  video_url : String
  deriving DecidableEq, Repr

/-- Building the dict appended to `all_videos` for one video passing the
filters (src/youtube_fetcher.py lines 117-157). -/
def mkItem (query : String) (v : Video) (subscribers : Nat) : ContentItem :=
  let viral_score := calculate_viral_score v.views subscribers
  { id := v.id
    title := v.title
    author := v.channelTitle
    hashtag := query
    followers := subscribers
    views := v.views
    likes := v.likes
    comments := v.comments
    date := v.date
    viral_score := viral_score
    virality_label := classify_virality viral_score
    video_type := if v.durationSeconds < 60 then "Short" else "Long-form"
    duration_seconds := v.durationSeconds
    thumbnail_url := v.thumbnail
    video_url := "https://www.youtube.com/watch?v=" ++ v.id }

/-- The per-item loop over `videos_response['items']`
(src/youtube_fetcher.py lines 102-161): skip a video failing the
`views < min_views or subscribers < min_subscribers` filter, otherwise append
its item; break out as soon as `len(all_videos) >= target_results`. -/
def processPage (api : YTApi) (query : String) (target_results min_views min_subscribers : Nat) :
    List Video → List ContentItem → List ContentItem
  | [], acc => acc
  | v :: rest, acc =>
    let subscribers := subMapLookup api v.channelId
    if v.views < min_views ∨ subscribers < min_subscribers then
      processPage api query target_results min_views min_subscribers rest acc
    else
      let acc2 := acc ++ [mkItem query v subscribers]
      if acc2.length ≥ target_results then acc2
      else processPage api query target_results min_views min_subscribers rest acc2

/-- The internal state of one `search_videos` run: `all_videos`, the last
`search_response` bound (if any), the `api_calls` counter, the trace of
upstream calls issued, and the pending exception when an upstream call raised
(the function body has no try/except, so the exception propagates). -/
structure RunState where
  all_videos : List ContentItem
  last : Option SearchResponse
  api_calls : Nat
  trace : List ApiCall
  error : Option String
  deriving Repr

/-- The `while len(all_videos) < target_results and api_calls < max_api_calls`
loop of `search_videos` (src/youtube_fetcher.py lines 60-166).  `fuel` is
`max_api_calls - api_calls`, so the guard `api_calls < max_api_calls` is
`fuel > 0`.  Per iteration: increment `api_calls`, issue the search call (its
exception propagates), break on an empty item list, otherwise issue the
`videos().list` and `channels().list` calls (the latter on
`list(set(channel ids))`, modelled by `dedup`), run the per-item loop, then
take `nextPageToken` and break when it is absent. -/
def searchLoop (api : YTApi) (query : String)
    (target_results min_views min_subscribers : Nat) :
    Nat → Option Nat → List ContentItem → Option SearchResponse → Nat → List ApiCall → RunState
  | 0, _, acc, last, calls, tr => ⟨acc, last, calls, tr, none⟩
  | fuel + 1, token, acc, last, calls, tr =>
    if acc.length ≥ target_results then ⟨acc, last, calls, tr, none⟩
    else
      let calls := calls + 1
      let tr := tr ++ [ApiCall.search token]
      match api.fetch token with
      | Except.error e => ⟨acc, last, calls, tr, some e⟩
      | Except.ok resp =>
        if resp.items.isEmpty then ⟨acc, some resp, calls, tr, none⟩
        else
          let video_ids := resp.items.map Video.id
          let channel_ids := (resp.items.map Video.channelId).dedup
          let tr := tr ++ [ApiCall.videosList video_ids, ApiCall.channelsList channel_ids]
          let acc2 := processPage api query target_results min_views min_subscribers resp.items acc
          match resp.nextPageToken with
          | none => ⟨acc2, some resp, calls, tr, none⟩
          | some t =>
            searchLoop api query target_results min_views min_subscribers
              fuel (some t) acc2 (some resp) calls tr

/-- A whole `search_videos` run from its initial state:
`all_videos = []`, `current_page_token = page_token`, `api_calls = 0`. -/
def search_videos_run (api : YTApi) (query : String)
    (target_results min_views min_subscribers : Nat)
    (page_token : Option Nat) (max_api_calls : Nat) : RunState :=
  searchLoop api query target_results min_views min_subscribers
    max_api_calls page_token [] none 0 []

/-- The value `search_videos` returns: the 3-tuple
`(df, next_token, prev_token)` (src/youtube_fetcher.py lines 168-174).
The DataFrame is `all_videos[:target_results]`; the pagination tokens come
from the last `search_response` when one was bound (`'search_response' in
locals()`), else `None`.  No cost-units value is computed or returned. -/
structure SearchResult where
  df : List ContentItem
  next_token : Option Nat
  prev_token : Option Nat
  deriving DecidableEq, Repr

/-- `YouTubeDataFetcher.search_videos` (src/youtube_fetcher.py lines 35-174):
an upstream exception propagates out of the method (`Except.error`),
otherwise the 3-tuple is returned. -/
def search_videos (api : YTApi) (query : String)
    (target_results min_views min_subscribers : Nat)
    (page_token : Option Nat) (max_api_calls : Nat) : Except String SearchResult :=
  let r := search_videos_run api query target_results min_views min_subscribers
    page_token max_api_calls
  match r.error with
  | some e => Except.error e
  | none =>
    Except.ok
      { df := r.all_videos.take target_results
        next_token := Option.bind r.last SearchResponse.nextPageToken
        prev_token := Option.bind r.last SearchResponse.prevPageToken }

/-- Number of fields of the tuple `search_videos` returns
(`return df, next_token, prev_token`): three. -/
def search_videos_tuple_len : Nat := 3

end youtube_fetcher

namespace app

open youtube_fetcher

/-- The 6-tuple `load_youtube_data` returns (src/app.py lines 343-367). -/
structure LoadResult where
  df : List ContentItem
  next_token : Option Nat
  prev_token : Option Nat
  total_units : Nat
  source : String
  status : String
  deriving DecidableEq, Repr

/-- The message of the ValueError raised by unpacking the 3-tuple returned by
`search_videos` into the four targets
`df, next_token, prev_token, total_units` (src/app.py line 352). -/
def unpackError : String := "not enough values to unpack (expected 4, got 3)"

/-- `app.load_youtube_data` (src/app.py lines 343-367).  With no key the
no-API-key sentinel is returned.  Otherwise the try block calls
`fetcher.search_videos(...)` (without `max_api_calls`, so its default 5
applies) and unpacks the result into four targets; `search_videos` returns a
3-tuple (`search_videos_tuple_len = 3`), so on the success path the unpacking
raises ValueError; either exception lands in the `except` branch, which
returns an empty DataFrame, `None` tokens, 0 units and `str(e)` as status. -/
def load_youtube_data (api : YTApi) (query : String) (youtube_key : Option String)
    (target_results min_views min_subscribers : Nat)
    (page_token : Option Nat) : LoadResult :=
  match youtube_key with
  | none => ⟨[], none, none, 0, "YouTube API", "No API Key"⟩
  | some _ =>
    match search_videos api query target_results min_views min_subscribers page_token 5 with
    | Except.error e => ⟨[], none, none, 0, "YouTube API", e⟩
    | Except.ok _res =>
      if search_videos_tuple_len = 4 then
        -- unreachable: the returned tuple has only 3 fields, so there is no
        -- units value to bind; the unpacking raises instead
        ⟨_res.df, _res.next_token, _res.prev_token, 0, "YouTube API",
          if _res.df.isEmpty then "No Data" else "Success"⟩
      else ⟨[], none, none, 0, "YouTube API", unpackError⟩

/-- A quota-tracker state: `st.session_state.youtube_quota_used` and
`st.session_state.youtube_last_reset_day` (the latter a PT calendar date,
modelled as a day number). -/
structure QuotaState where
  youtube_quota_used : Nat
  youtube_last_reset_day : Nat
  deriving DecidableEq, Repr

/-- The auto-reset check (src/app.py lines 160-165): if the current PT date is
strictly later than the stored reset day, zero the usage and update the day. -/
def quota_auto_reset (pt_today : Nat) (s : QuotaState) : QuotaState :=
  if pt_today > s.youtube_last_reset_day then ⟨0, pt_today⟩ else s

/-- The usage increment (src/app.py lines 408-410): applied only when
`just_searched` is set and the load status is `"Success"`. -/
def quota_record_usage (just_searched : Bool) (status : String) (units_used : Nat)
    (s : QuotaState) : QuotaState :=
  if just_searched ∧ status = "Success" then
    ⟨s.youtube_quota_used + units_used, s.youtube_last_reset_day⟩
  else s

/-- One script execution's effect on the quota state: the script is linear,
so the auto-reset at lines 160-165 runs before the increment at lines
408-410. -/
def quota_script_run (pt_today : Nat) (just_searched : Bool) (status : String)
    (units_used : Nat) (s : QuotaState) : QuotaState :=
  quota_record_usage just_searched status units_used (quota_auto_reset pt_today s)

end app

namespace youtube_fetcher

/-- A concrete upstream behaving like the YouTube pagination protocol: page
tokens are page indices, fetching with no token yields page 0, page `i` of
`n` carries `nextPageToken = i+1` when `i+1 < n` and `prevPageToken = i-1`
when `0 < i`, and no transport errors occur. -/
def pagedApi (pages : List (List Video)) (chanSubs : String → Option Nat) : YTApi where
  fetch := fun t =>
    let i := t.getD 0
    if h : i < pages.length then
      Except.ok
        { items := pages.get ⟨i, h⟩
          nextPageToken := if i + 1 < pages.length then some (i + 1) else none
          prevPageToken := if 0 < i then some (i - 1) else none }
    else Except.ok { items := [], nextPageToken := none, prevPageToken := none }
  chanSubs := chanSubs

end youtube_fetcher

namespace real_data_fetcher

/-- One video of `json_data['data']['videos']` from the TikTok feed/search
endpoint, with the fields `fetch_posts` reads.  `author_unique_id` is
`author.get("unique_id")` with `""` for a missing id; `raw_thumbnail` is the
first available of `ai_dynamic_cover`, `origin_cover`, `cover` (empty string
when all are missing); `create_time` is the posting epoch time in seconds. -/
structure TkVideo where
  video_id : String
  title : String
  author_unique_id : String
  author_nickname : String
  play_count : Nat
  digg_count : Nat
  create_time : Nat
  raw_thumbnail : String
  deriving DecidableEq, Repr

/-- The RapidAPI TikTok upstream: `videos` is the list the feed/search call
returns for the requested hashtag and count; `followerCount` is the user/info
endpoint's `data.stats.followerCount` for a unique id (the chain of `.get`
defaults makes a missing value 1, folded into this function). -/
structure TkApi where
  videos : List TkVideo
  followerCount : String → Nat

/-- `RealDataFetcher._fetch_user_followers` (src/real_data_fetcher.py lines
112-131): returns 1 for a missing/empty unique id, else the user/info
follower count.  Request failures also yield 1 (the bare `except` at the call
site and inside), so the model is total. -/
def fetch_user_followers (api : TkApi) (unique_id : String) : Nat :=
  if unique_id = "" then 1 else api.followerCount unique_id

/-- One post dict produced by `RealDataFetcher.fetch_posts`
(src/real_data_fetcher.py lines 90-103). -/
structure TkPost where
  id : String
  title : String
  author : String
  hashtag : String
  followers : Nat
  views : Nat
  likes : Nat
  date : Nat
  viral_score : ℚ
  virality_label : String
  thumbnail_url : String
  video_url : String
  deriving DecidableEq, Repr

/-- The result of a `fetch_posts` run: the parsed posts, together with the
number of user/info follower-lookup calls issued (one per video in the page,
issued before the 90-day filter). -/
structure TkFetchResult where
  posts : List TkPost
  lookup_calls : Nat
  deriving DecidableEq, Repr

/-- The per-video loop of `RealDataFetcher.fetch_posts`
(src/real_data_fetcher.py lines 51-104).  For each video: one follower
lookup (fallbacks collapse to 1), floor a zero count to 1, score and label,
then skip the video when it is older than 90 days.  `now` is the current
epoch time in seconds; `days_old` is the floor of the age in days, as for
`timedelta.days`.  The `date` field keeps the raw `create_time` (the Python
code formats it to a string); URL-encoding of the thumbnail is elided. -/
def parseVideos (api : TkApi) (hashtag : String) (now : Nat) :
    List TkVideo → TkFetchResult
  | [] => ⟨[], 0⟩
  | v :: rest =>
    let r := parseVideos api hashtag now rest
    let views := v.play_count
    let likes := v.digg_count
    let followers0 := fetch_user_followers api v.author_unique_id
    let followers := if followers0 = 0 then 1 else followers0
    let score := virality_scorer.calculate_viral_score views followers
    let label := virality_scorer.classify_virality score
    let days_old : ℤ := Int.fdiv ((now : ℤ) - (v.create_time : ℤ)) 86400
    if days_old > 90 then ⟨r.posts, r.lookup_calls + 1⟩
    else
      let thumbnail :=
        if v.raw_thumbnail = "" then "https://picsum.photos/300/500"
        else "https://wsrv.nl/?url=" ++ v.raw_thumbnail ++ "&w=300&h=500&fit=cover"
      let post : TkPost :=
        { id := v.video_id
          title := v.title
          author := v.author_nickname
          hashtag := hashtag
          followers := followers
          views := views
          likes := likes
          date := v.create_time
          viral_score := score
          virality_label := label
          thumbnail_url := thumbnail
          video_url := "https://www.tiktok.com/@" ++ v.author_unique_id
            ++ "/video/" ++ v.video_id }
      ⟨post :: r.posts, r.lookup_calls + 1⟩

/-- `RealDataFetcher.fetch_posts` (src/real_data_fetcher.py lines 13-110):
prefix the hashtag with `#` when missing, then parse the returned videos. -/
def fetch_posts (api : TkApi) (hashtag : String) (now : Nat) : TkFetchResult :=
  let hashtag := if hashtag.startsWith "#" then hashtag else "#" ++ hashtag
  parseVideos api hashtag now api.videos

end real_data_fetcher

namespace youtube_fetcher

/-- Whether a traced call is a `search().list` page fetch. -/
def isSearchCall : ApiCall → Bool
  | ApiCall.search _ => true
  | _ => false

/-- Whether a traced call is a `channels().list` batched subscriber lookup. -/
def isChannelsCall : ApiCall → Bool
  | ApiCall.channelsList _ => true
  | _ => false

/-- Number of `search().list` calls in a trace. -/
def countSearch (tr : List ApiCall) : Nat := (tr.filter isSearchCall).length

/-- Number of `channels().list` calls in a trace. -/
def countChannels (tr : List ApiCall) : Nat := (tr.filter isChannelsCall).length

end youtube_fetcher

/-! ## Concrete fixtures used by witnesses and counterexamples -/

/-- A video on channel `c1` (30 s, 100 views). -/
def vidA : youtube_fetcher.Video :=
  ⟨"vA", "c1", 100, 3, 2, 30, "tA", "descA", "thA", "chanOne", "2024-01-01"⟩

/-- A second video on the same channel `c1` (70 s, 200 views). -/
def vidB : youtube_fetcher.Video :=
  ⟨"vB", "c1", 200, 4, 1, 70, "tB", "descB", "thB", "chanOne", "2024-01-02"⟩

/-- A video on channel `c2` (70 s, 300 views). -/
def vidC : youtube_fetcher.Video :=
  ⟨"vC", "c2", 300, 5, 2, 70, "tC", "descC", "thC", "chanTwo", "2024-01-03"⟩

/-- A two-page upstream: page 0 = [vidA, vidB], page 1 = [vidC]; every channel
has 10 subscribers; no transport errors. -/
def apiTwoPages : youtube_fetcher.YTApi :=
  youtube_fetcher.pagedApi [[vidA, vidB], [vidC]] (fun _ => some 10)

/-- An upstream whose first page succeeds with [vidA, vidB] and announces a
next page, and whose every further page fetch raises a transport error. -/
def apiErrPage2 : youtube_fetcher.YTApi where
  fetch := fun t =>
    match t with
    | none => Except.ok { items := [vidA, vidB], nextPageToken := some 1, prevPageToken := none }
    | some _ => Except.error "NetworkError"
  chanSubs := fun _ => some 10

/-- A TikTok video by author `alice`, posted at epoch 0. -/
def tkVid1 : real_data_fetcher.TkVideo := ⟨"t1", "title1", "alice", "Alice", 500, 10, 0, ""⟩

/-- A second TikTok video by the same author `alice`. -/
def tkVid2 : real_data_fetcher.TkVideo := ⟨"t2", "title2", "alice", "Alice", 800, 20, 0, ""⟩

/-- A TikTok upstream returning two videos by the same author; every user has
100 followers. -/
def tkApiDup : real_data_fetcher.TkApi := ⟨[tkVid1, tkVid2], fun _ => 100⟩

/-! ## Helper lemmas -/

lemma roundHalfEven_nonneg {q : ℚ} (h : 0 ≤ q) : 0 ≤ roundHalfEven q := by
  have hf : (0 : ℤ) ≤ ⌊q⌋ := Int.floor_nonneg.mpr h
  unfold roundHalfEven
  dsimp only
  split
  · exact hf
  · split
    · omega
    · split
      · exact hf
      · omega

lemma round2_nonneg {q : ℚ} (h : 0 ≤ q) : 0 ≤ round2 q := by
  unfold round2
  have h1 : (0 : ℤ) ≤ roundHalfEven (q * 100) :=
    roundHalfEven_nonneg (mul_nonneg h (by norm_num))
  have h2 : (0 : ℚ) ≤ (roundHalfEven (q * 100) : ℚ) := Int.cast_nonneg.mpr h1
  exact div_nonneg h2 (by norm_num)

lemma yt_calculate_viral_score_nonneg (views subscribers : Nat) :
    0 ≤ youtube_fetcher.calculate_viral_score views subscribers := by
  unfold youtube_fetcher.calculate_viral_score
  exact round2_nonneg (div_nonneg (Nat.cast_nonneg views) (Nat.cast_nonneg _))

lemma ts_calculate_viral_score_nonneg (views followers : Nat) :
    0 ≤ virality_scorer.calculate_viral_score views followers := by
  unfold virality_scorer.calculate_viral_score
  split
  · exact le_refl 0
  · exact round2_nonneg (div_nonneg (Nat.cast_nonneg views) (Nat.cast_nonneg _))

lemma subMapLookup_pos (api : youtube_fetcher.YTApi) (channelId : String) :
    1 ≤ youtube_fetcher.subMapLookup api channelId := by
  unfold youtube_fetcher.subMapLookup
  cases api.chanSubs channelId with
  | none => exact le_refl 1
  | some n =>
    dsimp only
    split <;> omega

namespace youtube_fetcher

lemma processPage_length_le (api : YTApi) (query : String) (t mv ms : Nat) :
    ∀ (items : List Video) (acc : List ContentItem), acc.length < t →
      (processPage api query t mv ms items acc).length ≤ t := by
  intro items
  induction items with
  | nil => intro acc h; rw [processPage]; omega
  | cons v rest ih =>
    intro acc h
    rw [processPage]
    by_cases hf : v.views < mv ∨ subMapLookup api v.channelId < ms
    · rw [if_pos hf]; exact ih acc h
    · rw [if_neg hf]
      dsimp only
      by_cases h2 : (acc ++ [mkItem query v (subMapLookup api v.channelId)]).length ≥ t
      · rw [if_pos h2]
        simp only [List.length_append, List.length_singleton]
        omega
      · rw [if_neg h2]
        exact ih _ (Nat.lt_of_not_le h2)

lemma searchLoop_length_le (api : YTApi) (query : String) (t mv ms : Nat) :
    ∀ (fuel : Nat) (token : Option Nat) (acc : List ContentItem)
      (last : Option SearchResponse) (calls : Nat) (tr : List ApiCall),
      acc.length ≤ t →
      (searchLoop api query t mv ms fuel token acc last calls tr).all_videos.length ≤ t := by
  intro fuel
  induction fuel with
  | zero => intro token acc last calls tr h; rw [searchLoop]; exact h
  | succ n ih =>
    intro token acc last calls tr h
    rw [searchLoop]
    split_ifs with hge
    · exact h
    · have hlt : acc.length < t := Nat.lt_of_not_le (by simpa using hge)
      cases hfetch : api.fetch token with
      | error e => exact h
      | ok resp =>
        dsimp only
        split_ifs with hemp
        · exact h
        · have hacc2 := processPage_length_le api query t mv ms resp.items acc hlt
          cases hnext : resp.nextPageToken with
          | none => exact hacc2
          | some tk => exact ih _ _ _ _ _ hacc2

lemma countSearch_append (tr1 tr2 : List ApiCall) :
    countSearch (tr1 ++ tr2) = countSearch tr1 + countSearch tr2 := by
  simp [countSearch, List.filter_append]

lemma countChannels_append (tr1 tr2 : List ApiCall) :
    countChannels (tr1 ++ tr2) = countChannels tr1 + countChannels tr2 := by
  simp [countChannels, List.filter_append]

lemma countSearch_single_search (tok : Option Nat) :
    countSearch [ApiCall.search tok] = 1 := rfl

lemma countSearch_detail_pair (ids cids : List String) :
    countSearch [ApiCall.videosList ids, ApiCall.channelsList cids] = 0 := rfl

lemma countChannels_single_search (tok : Option Nat) :
    countChannels [ApiCall.search tok] = 0 := rfl

lemma countChannels_detail_pair (ids cids : List String) :
    countChannels [ApiCall.videosList ids, ApiCall.channelsList cids] = 1 := rfl

lemma searchLoop_calls_all (api : YTApi) (query : String) (t mv ms : Nat) :
    ∀ (fuel : Nat) (token : Option Nat) (acc : List ContentItem)
      (last : Option SearchResponse) (calls : Nat) (tr : List ApiCall),
      (searchLoop api query t mv ms fuel token acc last calls tr).api_calls ≤ calls + fuel ∧
      (calls = countSearch tr →
        (searchLoop api query t mv ms fuel token acc last calls tr).api_calls
          = countSearch (searchLoop api query t mv ms fuel token acc last calls tr).trace) ∧
      (countChannels tr ≤ countSearch tr →
        countChannels (searchLoop api query t mv ms fuel token acc last calls tr).trace
          ≤ countSearch (searchLoop api query t mv ms fuel token acc last calls tr).trace) := by
  intro fuel
  induction fuel with
  | zero =>
    intro token acc last calls tr
    rw [searchLoop]
    exact ⟨Nat.le_add_right calls 0, fun h => h, fun h => h⟩
  | succ n ih =>
    intro token acc last calls tr
    rw [searchLoop]
    split_ifs with hge
    · exact ⟨Nat.le_add_right calls (n + 1), fun h => h, fun h => h⟩
    · cases hfetch : api.fetch token with
      | error e =>
        refine ⟨?_, ?_, ?_⟩
        · show calls + 1 ≤ calls + (n + 1); omega
        · intro h
          show calls + 1 = countSearch (tr ++ [ApiCall.search token])
          rw [countSearch_append, countSearch_single_search, h]
        · intro h
          show countChannels (tr ++ [ApiCall.search token])
            ≤ countSearch (tr ++ [ApiCall.search token])
          rw [countChannels_append, countSearch_append,
            countChannels_single_search, countSearch_single_search]
          omega
      | ok resp =>
        dsimp only
        split_ifs with hemp
        · refine ⟨?_, ?_, ?_⟩
          · show calls + 1 ≤ calls + (n + 1); omega
          · intro h
            show calls + 1 = countSearch (tr ++ [ApiCall.search token])
            rw [countSearch_append, countSearch_single_search, h]
          · intro h
            show countChannels (tr ++ [ApiCall.search token])
              ≤ countSearch (tr ++ [ApiCall.search token])
            rw [countChannels_append, countSearch_append,
              countChannels_single_search, countSearch_single_search]
            omega
        · cases hnext : resp.nextPageToken with
          | none =>
            refine ⟨?_, ?_, ?_⟩
            · show calls + 1 ≤ calls + (n + 1); omega
            · intro h
              show calls + 1 = countSearch (tr ++ [ApiCall.search token]
                ++ [ApiCall.videosList (resp.items.map Video.id),
                    ApiCall.channelsList (resp.items.map Video.channelId).dedup])
              rw [countSearch_append, countSearch_append,
                countSearch_single_search, countSearch_detail_pair, h]
            · intro h
              show countChannels (tr ++ [ApiCall.search token]
                  ++ [ApiCall.videosList (resp.items.map Video.id),
                      ApiCall.channelsList (resp.items.map Video.channelId).dedup])
                ≤ countSearch (tr ++ [ApiCall.search token]
                  ++ [ApiCall.videosList (resp.items.map Video.id),
                      ApiCall.channelsList (resp.items.map Video.channelId).dedup])
              rw [countChannels_append, countChannels_append, countSearch_append,
                countSearch_append, countChannels_single_search,
                countChannels_detail_pair, countSearch_single_search,
                countSearch_detail_pair]
              omega
          | some tk =>
            dsimp only
            obtain ⟨ih1, ih2, ih3⟩ := ih (some tk)
              (processPage api query t mv ms resp.items acc) (some resp) (calls + 1)
              (tr ++ [ApiCall.search token]
                ++ [ApiCall.videosList (resp.items.map Video.id),
                    ApiCall.channelsList (resp.items.map Video.channelId).dedup])
            refine ⟨by omega, ?_, ?_⟩
            · intro h
              refine ih2 ?_
              rw [countSearch_append, countSearch_append,
                countSearch_single_search, countSearch_detail_pair, h]
            · intro h
              refine ih3 ?_
              rw [countChannels_append, countChannels_append, countSearch_append,
                countSearch_append, countChannels_single_search,
                countChannels_detail_pair, countSearch_single_search,
                countSearch_detail_pair]
              omega

lemma searchLoop_channels_nodup (api : YTApi) (query : String) (t mv ms : Nat) :
    ∀ (fuel : Nat) (token : Option Nat) (acc : List ContentItem)
      (last : Option SearchResponse) (calls : Nat) (tr : List ApiCall),
      (∀ ids, ApiCall.channelsList ids ∈ tr → ids.Nodup) →
      ∀ ids, ApiCall.channelsList ids
          ∈ (searchLoop api query t mv ms fuel token acc last calls tr).trace →
        ids.Nodup := by
  intro fuel
  induction fuel with
  | zero => intro token acc last calls tr h; rw [searchLoop]; exact h
  | succ n ih =>
    intro token acc last calls tr h
    have hsearch : ∀ ids, ApiCall.channelsList ids ∈ tr ++ [ApiCall.search token] →
        ids.Nodup := by
      intro ids hmem
      rcases List.mem_append.mp hmem with hmem | hmem
      · exact h ids hmem
      · simp at hmem
    have hdetail : ∀ (items : List Video) ids,
        ApiCall.channelsList ids ∈ tr ++ [ApiCall.search token]
          ++ [ApiCall.videosList (items.map Video.id),
              ApiCall.channelsList (items.map Video.channelId).dedup] →
        ids.Nodup := by
      intro items ids hmem
      rcases List.mem_append.mp hmem with hmem | hmem
      · exact hsearch ids hmem
      · simp only [List.mem_cons, List.mem_singleton] at hmem
        rcases hmem with hmem | hmem | hmem
        · exact absurd hmem (by simp)
        · obtain hids : ids = (items.map Video.channelId).dedup := by
            injection hmem
          rw [hids]; exact List.nodup_dedup _
        · exact absurd hmem (by simp)
    rw [searchLoop]
    split_ifs with hge
    · exact h
    · cases hfetch : api.fetch token with
      | error e => exact hsearch
      | ok resp =>
        dsimp only
        split_ifs with hemp
        · exact hsearch
        · cases hnext : resp.nextPageToken with
          | none => exact hdetail resp.items
          | some tk => exact ih _ _ _ _ _ (hdetail resp.items)

lemma parseVideos_lookup_calls (api : real_data_fetcher.TkApi) (hashtag : String)
    (now : Nat) :
    ∀ vids : List real_data_fetcher.TkVideo,
      (real_data_fetcher.parseVideos api hashtag now vids).lookup_calls = vids.length := by
  intro vids
  induction vids with
  | nil => rfl
  | cons v rest ih =>
    rw [real_data_fetcher.parseVideos]
    dsimp only
    by_cases hold : Int.fdiv ((now : ℤ) - (v.create_time : ℤ)) 86400 > 90
    · rw [if_pos hold]
      show (real_data_fetcher.parseVideos api hashtag now rest).lookup_calls + 1
        = rest.length + 1
      rw [ih]
    · rw [if_neg hold]
      show (real_data_fetcher.parseVideos api hashtag now rest).lookup_calls + 1
        = rest.length + 1
      rw [ih]

end youtube_fetcher

/-! ## Claim theorems -/

/-- C1 (code bug): `search_videos` returns the 3-tuple
`(df, next_token, prev_token)` with no cost-units value, yet its caller
`load_youtube_data` unpacks four values; the unpacking of every successful
fetch raises ValueError, lands in the `except` branch, and the caller
therefore reports `total_units = 0` and an empty DataFrame on every call with
an API key — a non-zero cost is never observable, contradicting the claim
(and the caller's own quota accounting at src/app.py lines 408-410). -/
theorem c1_cost_never_returned (api : youtube_fetcher.YTApi) (query k : String)
    (t mv ms : Nat) (token : Option Nat) :
    (app.load_youtube_data api query (some k) t mv ms token).total_units = 0 ∧
    (app.load_youtube_data api query (some k) t mv ms token).df = [] ∧
    youtube_fetcher.search_videos_tuple_len = 3 := by
  refine ⟨?_, ?_, rfl⟩ <;>
  · unfold app.load_youtube_data
    cases hs : youtube_fetcher.search_videos api query t mv ms token 5 with
    | error e => simp [hs]
    | ok res => simp [hs, youtube_fetcher.search_videos_tuple_len]

/-- C2 counterexample: with an upstream whose page 0 yields two passing items
and whose page 1 fetch raises a transport error, the aggregation run has 2
accumulated items when the error strikes, yet `load_youtube_data` returns an
empty item list (with the error detail as status) — the partial accumulator
is discarded, not preserved as the claim states. -/
theorem c2_counterexample :
    (youtube_fetcher.search_videos_run apiErrPage2 "q" 10 0 0 none 5).all_videos.length = 2 ∧
    (youtube_fetcher.search_videos_run apiErrPage2 "q" 10 0 0 none 5).error
      = some "NetworkError" ∧
    (app.load_youtube_data apiErrPage2 "q" (some "key") 10 0 0 none).df = [] ∧
    (app.load_youtube_data apiErrPage2 "q" (some "key") 10 0 0 none).status
      = "NetworkError" ∧
    (2 : Nat) ≠ 0 :=
  ⟨rfl, rfl, rfl, rfl, by decide⟩

/-- C2 (amended): a transport error raised by an upstream search call
propagates out of `search_videos` (which has no internal try/except, losing
the partial accumulator) and is caught in `load_youtube_data`, which returns
status `Error(detail)` with an EMPTY item list, `None` tokens and 0 units —
the items accumulated from prior pages are discarded, not preserved. -/
theorem c2_error_empties_result (api : youtube_fetcher.YTApi) (query k : String)
    (t mv ms : Nat) (token : Option Nat) (e : String)
    (h : youtube_fetcher.search_videos api query t mv ms token 5 = Except.error e) :
    app.load_youtube_data api query (some k) t mv ms token
      = ⟨[], none, none, 0, "YouTube API", e⟩ := by
  simp [app.load_youtube_data, h]

/-- C2 witness: the amended statement applied to the concrete
erroring-page-1 fixture. -/
theorem c2_error_empties_result_witness :
    app.load_youtube_data apiErrPage2 "q" (some "key") 10 0 0 none
      = ⟨[], none, none, 0, "YouTube API", "NetworkError"⟩ :=
  c2_error_empties_result apiErrPage2 "q" "key" 10 0 0 none "NetworkError" rfl

/-- C7: in every script execution the daily-reset check runs before the usage
increment: whenever the current PT date is strictly later than the stored
reset day, the state is first reset to `⟨0, today⟩` and the increment (when
`just_searched` and status Success) applies on top of the reset value, so the
final usage is the new units alone, not `9999 + units`. -/
theorem c7_reset_before_increment (pt_today : Nat) (just : Bool) (status : String)
    (units : Nat) (s : app.QuotaState)
    (h : pt_today > s.youtube_last_reset_day) :
    app.quota_script_run pt_today just status units s
      = app.quota_record_usage just status units ⟨0, pt_today⟩ ∧
    (app.quota_script_run pt_today just status units s).youtube_quota_used
      = (if just ∧ status = "Success" then units else 0) := by
  have hr : app.quota_auto_reset pt_today s = ⟨0, pt_today⟩ := by
    unfold app.quota_auto_reset
    rw [if_pos h]
  refine ⟨?_, ?_⟩
  · unfold app.quota_script_run
    rw [hr]
  · unfold app.quota_script_run
    rw [hr]
    unfold app.quota_record_usage
    split_ifs with hc
    · simp
    · rfl

/-- C7 witness: from `units_used = 9999` and `reset_date` = yesterday (day 5),
an access on day 6 that records 100 units ends at 100 units, not 10099. -/
theorem c7_reset_before_increment_witness :
    (app.quota_script_run 6 true "Success" 100 ⟨9999, 5⟩).youtube_quota_used = 100 := by
  have h := (c7_reset_before_increment 6 true "Success" 100 ⟨9999, 5⟩ (by decide)).2
  simpa using h

/-- C5: the aggregation returns at most `target_results` items: the
accumulator itself never exceeds `target_results` (the per-item loop breaks
as soon as it is reached), and the returned DataFrame is
`all_videos[:target_results]`, hence also bounded by `target_results`. -/
theorem c5_at_most_target (api : youtube_fetcher.YTApi) (query : String)
    (t mv ms : Nat) (token : Option Nat) (maxc : Nat) :
    (youtube_fetcher.search_videos_run api query t mv ms token maxc).all_videos.length ≤ t ∧
    (∀ res, youtube_fetcher.search_videos api query t mv ms token maxc = Except.ok res →
      res.df.length ≤ t ∧
      res.df = (youtube_fetcher.search_videos_run api query t mv ms token maxc).all_videos.take t) := by
  constructor
  · exact youtube_fetcher.searchLoop_length_le api query t mv ms maxc token [] none 0 []
      (by simp)
  · intro res hres
    unfold youtube_fetcher.search_videos at hres
    dsimp only at hres
    cases herr : (youtube_fetcher.search_videos_run api query t mv ms token maxc).error with
    | some e => rw [herr] at hres; exact absurd hres (by simp)
    | none =>
      rw [herr] at hres
      simp only [Except.ok.injEq] at hres
      subst hres
      exact ⟨List.length_take_le t _, rfl⟩

/-- C5 witness: with the two-page fixture and `target_results = 1`, the
returned DataFrame has at most one item and equals the trimmed
accumulator. -/
theorem c5_at_most_target_witness :
    ((youtube_fetcher.search_videos_run apiTwoPages "q" 1 0 0 none 5).all_videos.length ≤ 1) ∧
    (((youtube_fetcher.search_videos apiTwoPages "q" 1 0 0 none 5).toOption.get rfl).df.length ≤ 1) := by
  refine ⟨(c5_at_most_target apiTwoPages "q" 1 0 0 none 5).1, ?_⟩
  exact ((c5_at_most_target apiTwoPages "q" 1 0 0 none 5).2 _ rfl).1

/-- C6: the aggregation loop terminates — the embedding runs on the fuel
`max_api_calls - api_calls`, which each iteration strictly decreases as the
call counter is incremented — and for every input configuration the final
call counter is at most `max_api_calls` and equals the number of
`search().list` page fetches issued upstream, so never more than
`max_api_calls` search calls are issued (the failed fetch of an error run
included, since the counter is incremented before the call). -/
theorem c6_call_bound (api : youtube_fetcher.YTApi) (query : String)
    (t mv ms : Nat) (token : Option Nat) (maxc : Nat) :
    (youtube_fetcher.search_videos_run api query t mv ms token maxc).api_calls ≤ maxc ∧
    youtube_fetcher.countSearch
        (youtube_fetcher.search_videos_run api query t mv ms token maxc).trace
      = (youtube_fetcher.search_videos_run api query t mv ms token maxc).api_calls := by
  obtain ⟨h1, h2, -⟩ :=
    youtube_fetcher.searchLoop_calls_all api query t mv ms maxc token [] none 0 []
  exact ⟨by simpa using h1, (h2 rfl).symm⟩

/-- C3 counterexample: the claim says every platform fetcher resolves the
follower attribute with one batched lookup per set of unique keys per page;
but `RealDataFetcher.fetch_posts` issues one user-info lookup per item: on a
page of two videos by the same author it issues 2 lookup calls although the
page has exactly 1 unique author id. -/
theorem c3_counterexample :
    (real_data_fetcher.fetch_posts tkApiDup "#x" 0).lookup_calls = 2 ∧
    ((tkApiDup.videos.map real_data_fetcher.TkVideo.author_unique_id).dedup).length = 1 ∧
    (2 : Nat) ≠ 1 := by
  refine ⟨rfl, ?_, by decide⟩
  decide

/-- C3 (amended): the YouTube fetcher batches the lookup — per fetched page
at most one `channels().list` call is issued (never more channel-lookup calls
than pages), and every such call carries a duplicate-free id list
(`list(set(...))`), so duplicate channel ids within a page never cause
additional lookup calls; the TikTok fetcher (`RealDataFetcher.fetch_posts`)
instead issues exactly one user-info lookup per item of the page, so
duplicate author ids do cause additional calls. -/
theorem c3_batched_lookup_amended :
    (∀ (api : youtube_fetcher.YTApi) (query : String) (t mv ms : Nat)
      (token : Option Nat) (maxc : Nat),
      youtube_fetcher.countChannels
          (youtube_fetcher.search_videos_run api query t mv ms token maxc).trace
        ≤ youtube_fetcher.countSearch
            (youtube_fetcher.search_videos_run api query t mv ms token maxc).trace ∧
      (∀ ids, youtube_fetcher.ApiCall.channelsList ids
          ∈ (youtube_fetcher.search_videos_run api query t mv ms token maxc).trace →
        ids.Nodup)) ∧
    (∀ (tk : real_data_fetcher.TkApi) (hashtag : String) (now : Nat),
      (real_data_fetcher.fetch_posts tk hashtag now).lookup_calls = tk.videos.length) := by
  refine ⟨fun api query t mv ms token maxc => ⟨?_, ?_⟩, fun tk hashtag now => ?_⟩
  · obtain ⟨-, -, h3⟩ :=
      youtube_fetcher.searchLoop_calls_all api query t mv ms maxc token [] none 0 []
    exact h3 (Nat.le_refl 0)
  · exact youtube_fetcher.searchLoop_channels_nodup api query t mv ms maxc token [] none 0 []
      (by intro ids hmem; simp at hmem)
  · exact youtube_fetcher.parseVideos_lookup_calls tk _ now tk.videos

/-- C3 witness: the amended statement applied to the concrete two-page
YouTube fixture (the channels-call id list for page 0 is duplicate-free) and
to the duplicate-author TikTok fixture. -/
theorem c3_batched_lookup_amended_witness :
    (["c1"] : List String).Nodup ∧
    (real_data_fetcher.fetch_posts tkApiDup "#x" 7).lookup_calls
      = tkApiDup.videos.length := by
  constructor
  · refine (c3_batched_lookup_amended.1 apiTwoPages "q" 5 0 0 none 5).2 ["c1"] ?_
    decide
  · exact c3_batched_lookup_amended.2 tkApiDup "#x" 7

namespace youtube_fetcher

lemma processPage_pred (api : YTApi) (query : String) (t mv ms : Nat)
    (P : ContentItem → Prop) :
    ∀ (items : List Video) (acc : List ContentItem),
      (∀ v ∈ items, P (mkItem query v (subMapLookup api v.channelId))) →
      (∀ it ∈ acc, P it) →
      ∀ it ∈ processPage api query t mv ms items acc, P it := by
  intro items
  induction items with
  | nil =>
    intro acc hv hacc it hit
    rw [processPage] at hit
    exact hacc it hit
  | cons v rest ih =>
    intro acc hv hacc it hit
    rw [processPage] at hit
    by_cases hf : v.views < mv ∨ subMapLookup api v.channelId < ms
    · rw [if_pos hf] at hit
      exact ih acc (fun v2 h2 => hv v2 (List.mem_cons_of_mem v h2)) hacc it hit
    · rw [if_neg hf] at hit
      dsimp only at hit
      have hacc2 : ∀ it2 ∈ acc ++ [mkItem query v (subMapLookup api v.channelId)], P it2 := by
        intro it2 h2
        rcases List.mem_append.mp h2 with h2 | h2
        · exact hacc it2 h2
        · rw [List.mem_singleton] at h2
          subst h2
          exact hv v (List.mem_cons_self v rest)
      by_cases h2 : (acc ++ [mkItem query v (subMapLookup api v.channelId)]).length ≥ t
      · rw [if_pos h2] at hit
        exact hacc2 it hit
      · rw [if_neg h2] at hit
        exact ih _ (fun v2 hm => hv v2 (List.mem_cons_of_mem v hm)) hacc2 it hit

lemma searchLoop_pred (api : YTApi) (query : String) (t mv ms : Nat)
    (P : ContentItem → Prop)
    (hP : ∀ v, P (mkItem query v (subMapLookup api v.channelId))) :
    ∀ (fuel : Nat) (token : Option Nat) (acc : List ContentItem)
      (last : Option SearchResponse) (calls : Nat) (tr : List ApiCall),
      (∀ it ∈ acc, P it) →
      ∀ it ∈ (searchLoop api query t mv ms fuel token acc last calls tr).all_videos, P it := by
  intro fuel
  induction fuel with
  | zero => intro token acc last calls tr hacc; rw [searchLoop]; exact hacc
  | succ n ih =>
    intro token acc last calls tr hacc
    rw [searchLoop]
    split_ifs with hge
    · exact hacc
    · cases hfetch : api.fetch token with
      | error e => exact hacc
      | ok resp =>
        dsimp only
        split_ifs with hemp
        · exact hacc
        · have hacc2 := processPage_pred api query t mv ms P resp.items acc
            (fun v _ => hP v) hacc
          cases hnext : resp.nextPageToken with
          | none => exact hacc2
          | some tk => exact ih _ _ _ _ _ hacc2

lemma parseVideos_inv (api : real_data_fetcher.TkApi) (hashtag : String) (now : Nat) :
    ∀ vids : List real_data_fetcher.TkVideo,
      ∀ p ∈ (real_data_fetcher.parseVideos api hashtag now vids).posts,
        1 ≤ p.followers ∧ 0 ≤ p.viral_score := by
  intro vids
  induction vids with
  | nil => intro p hp; rw [real_data_fetcher.parseVideos] at hp; exact absurd hp (by simp)
  | cons v rest ih =>
    intro p hp
    rw [real_data_fetcher.parseVideos] at hp
    dsimp only at hp
    by_cases hold : Int.fdiv ((now : ℤ) - (v.create_time : ℤ)) 86400 > 90
    · rw [if_pos hold] at hp
      exact ih p hp
    · rw [if_neg hold] at hp
      rcases List.mem_cons.mp hp with hp | hp
      · subst hp
        constructor
        · show 1 ≤ (if real_data_fetcher.fetch_user_followers api v.author_unique_id = 0
            then 1 else real_data_fetcher.fetch_user_followers api v.author_unique_id)
          split_ifs with h0
          · exact Nat.le_refl 1
          · omega
        · exact ts_calculate_viral_score_nonneg v.play_count _
      · exact ih p hp

end youtube_fetcher

/-- C8: every ContentItem produced by the YouTube fetcher's aggregation and
every post produced by the TikTok fetcher satisfies `followers ≥ 1` (the
floor to 1 is applied at ingestion for zero or missing counts) and
`viral_score ≥ 0`. -/
theorem c8_item_invariants :
    (∀ (api : youtube_fetcher.YTApi) (query : String) (t mv ms : Nat)
        (token : Option Nat) (maxc : Nat) it,
      it ∈ (youtube_fetcher.search_videos_run api query t mv ms token maxc).all_videos →
      1 ≤ it.followers ∧ 0 ≤ it.viral_score) ∧
    (∀ (tk : real_data_fetcher.TkApi) (hashtag : String) (now : Nat) p,
      p ∈ (real_data_fetcher.fetch_posts tk hashtag now).posts →
      1 ≤ p.followers ∧ 0 ≤ p.viral_score) := by
  constructor
  · intro api query t mv ms token maxc it hit
    refine youtube_fetcher.searchLoop_pred api query t mv ms
      (fun it => 1 ≤ it.followers ∧ 0 ≤ it.viral_score) ?_ maxc token [] none 0 []
      (by intro it2 h2; exact absurd h2 (by simp)) it hit
    intro v
    exact ⟨subMapLookup_pos api v.channelId,
      yt_calculate_viral_score_nonneg v.views (youtube_fetcher.subMapLookup api v.channelId)⟩
  · intro tk hashtag now p hp
    exact youtube_fetcher.parseVideos_inv tk _ now tk.videos p hp

/-- C8 witness: the invariants applied to a concrete item of the two-page
YouTube fixture and a concrete post of the TikTok fixture. -/
theorem c8_item_invariants_witness :
    (1 ≤ (youtube_fetcher.mkItem "q" vidA 10).followers ∧
      0 ≤ (youtube_fetcher.mkItem "q" vidA 10).viral_score) ∧
    (1 ≤ ((real_data_fetcher.fetch_posts tkApiDup "#x" 0).posts.get
        ⟨0, by decide⟩).followers ∧
      0 ≤ ((real_data_fetcher.fetch_posts tkApiDup "#x" 0).posts.get
        ⟨0, by decide⟩).viral_score) := by
  constructor
  · refine c8_item_invariants.1 apiTwoPages "q" 1 0 0 none 5
      (youtube_fetcher.mkItem "q" vidA 10) ?_
    show youtube_fetcher.mkItem "q" vidA 10 ∈ [youtube_fetcher.mkItem "q" vidA 10]
    exact List.mem_singleton_self _
  · exact c8_item_invariants.2 tkApiDup "#x" 0 _ (List.get_mem _ _ _)

namespace youtube_fetcher

lemma pagedApi_fetch_lt (pages : List (List Video)) (chanSubs : String → Option Nat)
    (s : Nat) (hs : s < pages.length) :
    (pagedApi pages chanSubs).fetch (some s)
      = Except.ok
          { items := pages.get ⟨s, hs⟩
            nextPageToken := if s + 1 < pages.length then some (s + 1) else none
            prevPageToken := if 0 < s then some (s - 1) else none } := by
  simp [pagedApi, hs]

lemma pagedApi_fetch_ge (pages : List (List Video)) (chanSubs : String → Option Nat)
    (s : Nat) (hs : ¬ s < pages.length) :
    (pagedApi pages chanSubs).fetch (some s)
      = Except.ok { items := [], nextPageToken := none, prevPageToken := none } := by
  simp [pagedApi, hs]

lemma searchLoop_paged_provenance (pages : List (List Video))
    (chanSubs : String → Option Nat) (query : String) (t mv ms start : Nat) :
    ∀ (fuel : Nat) (s : Nat) (acc : List ContentItem)
      (last : Option SearchResponse) (calls : Nat) (tr : List ApiCall),
      start ≤ s →
      (∀ it ∈ acc, ∃ j, start ≤ j ∧ ∃ hj : j < pages.length,
        ∃ v, v ∈ pages.get ⟨j, hj⟩ ∧ it.id = v.id) →
      ∀ it ∈ (searchLoop (pagedApi pages chanSubs) query t mv ms
          fuel (some s) acc last calls tr).all_videos,
        ∃ j, start ≤ j ∧ ∃ hj : j < pages.length,
          ∃ v, v ∈ pages.get ⟨j, hj⟩ ∧ it.id = v.id := by
  intro fuel
  induction fuel with
  | zero => intro s acc last calls tr hstart hacc; rw [searchLoop]; exact hacc
  | succ n ih =>
    intro s acc last calls tr hstart hacc
    rw [searchLoop]
    split_ifs with hge
    · exact hacc
    · by_cases hs : s < pages.length
      · rw [pagedApi_fetch_lt pages chanSubs s hs]
        dsimp only
        by_cases hemp : (pages.get ⟨s, hs⟩).isEmpty
        · rw [if_pos hemp]
          exact hacc
        · rw [if_neg hemp]
          have hacc2 := processPage_pred (pagedApi pages chanSubs) query t mv ms
            (fun it => ∃ j, start ≤ j ∧ ∃ hj : j < pages.length,
              ∃ v, v ∈ pages.get ⟨j, hj⟩ ∧ it.id = v.id)
            (pages.get ⟨s, hs⟩) acc
            (fun v hv => ⟨s, hstart, hs, v, hv, rfl⟩) hacc
          by_cases hnx : s + 1 < pages.length
          · rw [if_pos hnx]
            dsimp only
            exact ih (s + 1) _ _ _ _ (Nat.le_succ_of_le hstart) hacc2
          · rw [if_neg hnx]
            dsimp only
            exact hacc2
      · rw [pagedApi_fetch_ge pages chanSubs s hs]
        exact hacc

end youtube_fetcher

/-- C10: (i) for every error-free run, the returned `next_token` (and
`prev_token`) come from the LAST `search_response` bound — even when the
per-item loop broke mid-page — and the DataFrame is the trimmed accumulator;
(ii) against a paginated upstream, every item a run resumed from page token
`start` returns originates in a page with index ≥ `start`; hence the
unconsumed remainder of the page on which a previous run broke mid-page
(index `start - 1`), when it occurs in no later page, is returned by neither
the original run (which cut it) nor the resumed run. -/
theorem c10_next_token_skips_remainder :
    (∀ (api : youtube_fetcher.YTApi) (query : String) (t mv ms : Nat)
        (token : Option Nat) (maxc : Nat),
      (youtube_fetcher.search_videos_run api query t mv ms token maxc).error = none →
      youtube_fetcher.search_videos api query t mv ms token maxc
        = Except.ok
            { df := (youtube_fetcher.search_videos_run api query t mv ms token
                maxc).all_videos.take t
              next_token := Option.bind
                (youtube_fetcher.search_videos_run api query t mv ms token maxc).last
                youtube_fetcher.SearchResponse.nextPageToken
              prev_token := Option.bind
                (youtube_fetcher.search_videos_run api query t mv ms token maxc).last
                youtube_fetcher.SearchResponse.prevPageToken }) ∧
    (∀ (pages : List (List youtube_fetcher.Video)) (chanSubs : String → Option Nat)
        (query : String) (t mv ms maxc start : Nat) it,
      it ∈ (youtube_fetcher.search_videos_run (youtube_fetcher.pagedApi pages chanSubs)
          query t mv ms (some start) maxc).all_videos →
      ∃ j, start ≤ j ∧ ∃ hj : j < pages.length,
        ∃ v, v ∈ pages.get ⟨j, hj⟩ ∧ it.id = v.id) := by
  constructor
  · intro api query t mv ms token maxc herr
    unfold youtube_fetcher.search_videos
    dsimp only
    rw [herr]
  · intro pages chanSubs query t mv ms maxc start it hit
    exact youtube_fetcher.searchLoop_paged_provenance pages chanSubs query t mv ms start
      maxc start [] none 0 [] (Nat.le_refl start)
      (by intro it2 h2; exact absurd h2 (by simp)) it hit

/-- C10 witness: with pages `[[vidA, vidB], [vidC]]` and `target_results = 1`
the first run breaks mid-page after `vidA`, returns `next_token = some 1`
(the `nextPageToken` of its last fetched page), and the resumed run's only
item originates from a page with index ≥ 1 — `vidB`, the remainder of page 0,
is returned by neither run. -/
theorem c10_next_token_skips_remainder_witness :
    ((youtube_fetcher.search_videos_run apiTwoPages "q" 1 0 0 none 5).all_videos.map
        youtube_fetcher.ContentItem.id = ["vA"]) ∧
    ((youtube_fetcher.search_videos_run apiTwoPages "q" 1 0 0 (some 1) 5).all_videos.map
        youtube_fetcher.ContentItem.id = ["vC"]) ∧
    youtube_fetcher.search_videos apiTwoPages "q" 1 0 0 none 5
      = Except.ok
          { df := (youtube_fetcher.search_videos_run apiTwoPages "q" 1 0 0 none
              5).all_videos.take 1
            next_token := Option.bind
              (youtube_fetcher.search_videos_run apiTwoPages "q" 1 0 0 none 5).last
              youtube_fetcher.SearchResponse.nextPageToken
            prev_token := Option.bind
              (youtube_fetcher.search_videos_run apiTwoPages "q" 1 0 0 none 5).last
              youtube_fetcher.SearchResponse.prevPageToken } ∧
    (∃ j, 1 ≤ j ∧ ∃ hj : j < ([[vidA, vidB], [vidC]]
        : List (List youtube_fetcher.Video)).length,
      ∃ v, v ∈ [[vidA, vidB], [vidC]].get ⟨j, hj⟩ ∧
        (youtube_fetcher.mkItem "q" vidC 10).id = v.id) := by
  refine ⟨rfl, rfl, c10_next_token_skips_remainder.1 apiTwoPages "q" 1 0 0 none 5 rfl, ?_⟩
  refine c10_next_token_skips_remainder.2 [[vidA, vidB], [vidC]] (fun _ => some 10)
    "q" 1 0 0 5 1 (youtube_fetcher.mkItem "q" vidC 10) ?_
  show youtube_fetcher.mkItem "q" vidC 10 ∈ [youtube_fetcher.mkItem "q" vidC 10]
  exact List.mem_singleton_self _

/-- C9: both classify functions are total (they are Lean functions on all of
`ℚ`) and agree everywhere with their spec ladders evaluated highest-first,
first match winning: the conservative ladder (≥10 mega-viral, ≥3 trending,
≥1 popular, else normal) for `virality_scorer.classify_virality` and the
stricter ladder (≥10 mega, ≥5 viral, ≥2 trending, else normal) for
`youtube_fetcher.classify_virality`; being functions, they map every score to
exactly one label. -/
theorem c9_classify_ladders (s : ℚ) :
    virality_scorer.classify_virality s = conservativeLadder s ∧
    youtube_fetcher.classify_virality s = stricterLadder s :=
  ⟨rfl, rfl⟩

/-- C4 counterexample: the claim asserts `score(v, 0) == 0.0` for each
platform's scoring function, but `youtube_fetcher.calculate_viral_score`
substitutes 1 for a zero subscriber count: at `views = 5, followers = 0` it
returns `5`, not `0`. -/
theorem c4_counterexample :
    youtube_fetcher.calculate_viral_score 5 0 = 5 ∧
    youtube_fetcher.calculate_viral_score 5 0 ≠ 0 := by
  have h : youtube_fetcher.calculate_viral_score 5 0 = 5 := by
    norm_num [youtube_fetcher.calculate_viral_score, round2, roundHalfEven]
  exact ⟨h, by rw [h]; norm_num⟩

/-- C4 (amended): for `followers ≥ 1` both scoring functions return
`round(views / followers, 2)`; at `followers == 0` the TikTok scorer
(`virality_scorer`) returns `0.0`, while the YouTube scorer substitutes 1 and
returns `round(views, 2)`. -/
theorem c4_score_amended (views followers : Nat) :
    virality_scorer.calculate_viral_score views 0 = 0 ∧
    youtube_fetcher.calculate_viral_score views 0 = round2 (views : ℚ) ∧
    (1 ≤ followers →
      virality_scorer.calculate_viral_score views followers
          = round2 ((views : ℚ) / (followers : ℚ)) ∧
      youtube_fetcher.calculate_viral_score views followers
          = round2 ((views : ℚ) / (followers : ℚ))) := by
  refine ⟨?_, ?_, fun h => ⟨?_, ?_⟩⟩
  · simp [virality_scorer.calculate_viral_score]
  · simp [youtube_fetcher.calculate_viral_score]
  · have hne : followers ≠ 0 := by omega
    simp [virality_scorer.calculate_viral_score, hne]
  · have hne : followers ≠ 0 := by omega
    simp [youtube_fetcher.calculate_viral_score, hne]

/-- C4 witness: the amended statement applied at `views = 7, followers = 2`. -/
theorem c4_score_amended_witness :
    virality_scorer.calculate_viral_score 7 0 = 0 ∧
    virality_scorer.calculate_viral_score 7 2 = round2 ((7 : ℚ) / 2) ∧
    youtube_fetcher.calculate_viral_score 7 2 = round2 ((7 : ℚ) / 2) :=
  ⟨(c4_score_amended 7 2).1,
   ((c4_score_amended 7 2).2.2 (by decide)).1,
   ((c4_score_amended 7 2).2.2 (by decide)).2⟩
